import Mathlib

/-!
Shallow embedding of the lexical scope resolver and runtime namespace
binder of `formal/scopes.py` and `formal/namespaces.py`.

Scopes are held in an arena (`STree`), indexed by `Nat` ids; Python object
identity becomes id equality.  A scope's `vars` dict is an insertion-ordered
association list from names to `Option Nat` (`none` is Python's `None`,
i.e. the *Used* classification; `some i` is a reference to the binding
scope).  Dict keys may be Python `None` (anonymous nested scopes are stored
under `None` by `NestedScope.__init__`), so keys are `Option String`.

Mutating methods become state-passing functions `STree → Except PyErr (α × STree)`.
Python exceptions become `PyErr` values; recursions that walk the parent
chain take explicit fuel and report exhaustion as `PyErr.outOfFuel`
(Python would loop forever on the malformed trees these correspond to).
Out-of-range arena ids, which cannot arise from the Python API, are
reported as `PyErr.badId`.
-/

/-- Python `None`-or-string dict keys: scope/var names. -/
abbrev OName := Option String

/-- Static classification messages carried by `SyntaxError` in `scopes.py`. -/
inductive SMsg where
  | walrusIterable      -- "assignment expression cannot be used in a comprehension iterable expression"
  | walrusClassBody     -- "assignment expression within a comprehension cannot be used in a class body"
  | noNonlocalBinding   -- "no binding for nonlocal '<name>' found"
  | nonlocalAndGlobal   -- "name '<name>' is nonlocal and global"
  | usedBeforeNonlocal  -- "name '<name>' is used prior to nonlocal declaration"
  | usedBeforeGlobal    -- "name '<name>' used prior to global declaration"
  | nonlocalAtModule    -- "nonlocal declaration not allowed at module level"
deriving DecidableEq, Repr

/-- Python exceptions raised by the two modules, plus embedding artifacts
(`outOfFuel` for divergence on malformed trees, `badId` for arena ids that
cannot occur through the Python API). -/
inductive PyErr where
  | staticErr (m : SMsg)  -- SyntaxError: the single static-binding error kind
  | keyErr                -- KeyError from a dict subscript
  | unboundLocal          -- UnboundLocalError
  | nameErr               -- NameError
  | attrErr               -- AttributeError (attribute access on None / unbound cell)
  | notImpl               -- NotImplementedError
  | assertErr             -- failed `assert`
  | outOfFuel
  | badId
deriving DecidableEq, Repr

/-- Scope kinds: the concrete `Scope` subclasses of `scopes.py` reachable
through the claims (`ToplevelScope` is never used by them). -/
inductive SKind where
  | masterK   -- MasterScope
  | globalK   -- GlobalScope
  | classK    -- ClassScope (an OpenScope)
  | functionK -- FunctionScope (a ClosedScope)
  | lambdaK   -- LambdaScope
  | compK     -- ComprehensionScope
deriving DecidableEq, Repr

namespace SKind

/-- `ClosedScope` subclasses. -/
def isClosed : SKind → Bool
  | functionK | lambdaK | compK => true
  | _ => false

/-- `NestedScope` subclasses: every concrete class except Master/Global. -/
def isNested : SKind → Bool
  | masterK | globalK => false
  | _ => true

end SKind

/-- One `Scope` object: its `scope_name`, `parent`, cached `global_scope`
attribute, `vars` dict, `no_walrus` flag and `nested` list. -/
structure SNode where
  kind : SKind
  sname : OName
  parent : Option Nat
  gscope : Option Nat
  vars : List (OName × Option Nat)
  noWalrus : Bool
  nestedIds : List Nat
deriving DecidableEq, Repr

/-- The arena of scope objects; ids are list indices. -/
structure STree where
  nodes : List SNode
deriving DecidableEq, Repr

namespace STree

def node (t : STree) (i : Nat) : Option SNode := t.nodes[i]?

def setNode (t : STree) (i : Nat) (nd : SNode) : STree := ⟨t.nodes.set i nd⟩

end STree

/-- Ordered-dict lookup (`d[k]`, as `Option`). -/
def alLookup {α : Type} : List (OName × α) → OName → Option α
  | [], _ => none
  | (k, v) :: r, k' => if k = k' then some v else alLookup r k'

/-- Ordered-dict assignment `d[k] = v`: update in place, else append. -/
def alSet {α : Type} : List (OName × α) → OName → α → List (OName × α)
  | [], k, v => [(k, v)]
  | (k0, v0) :: r, k, v =>
      if k0 = k then (k0, v) :: r else (k0, v0) :: alSet r k v

abbrev M (α : Type) := Except PyErr α

instance {ε α : Type} [DecidableEq ε] [DecidableEq α] : DecidableEq (Except ε α) := fun a b =>
  match a, b with
  | .ok x, .ok y =>
      if h : x = y then .isTrue (h ▸ rfl) else .isFalse (fun hh => h (Except.ok.inj hh))
  | .error x, .error y =>
      if h : x = y then .isTrue (h ▸ rfl) else .isFalse (fun hh => h (Except.error.inj hh))
  | .ok _, .error _ => .isFalse (fun h => Except.noConfusion h)
  | .error _, .ok _ => .isFalse (fun h => Except.noConfusion h)

namespace Scopes

/-- Replace the vars dict of scope `s`. -/
def setVars (t : STree) (s : Nat) (vs : List (OName × Option Nat)) : STree :=
  match t.node s with
  | none => t
  | some nd => t.setNode s { nd with vars := vs }

/-- `self.vars[name] = v` on scope `s`. -/
def setVar (t : STree) (s : Nat) (n : OName) (v : Option Nat) : STree :=
  match t.node s with
  | none => t
  | some nd => t.setNode s { nd with vars := alSet nd.vars n v }

/-- `Scope.status`: classification of `name` in scope `s`. -/
inductive VarStatus where
  | Unknown | Used | Local | Nonlocal | Global | Top
deriving DecidableEq, Repr

/-- `Scope.status(name)`. -/
def status (t : STree) (s : Nat) (n : OName) : VarStatus :=
  match t.node s with
  | none => .Unknown
  | some nd =>
    match alLookup nd.vars n with
    | none => .Unknown
    | some none => .Used
    | some (some sc) =>
      if some s = nd.gscope then .Top
      else if sc = s then .Local
      else if some sc = nd.gscope then .Global
      else .Nonlocal

/-- `Scope.load(name)`: `self.vars.setdefault(name, None)`. -/
def load (t : STree) (s : Nat) (n : OName) : M (Option Nat × STree) :=
  match t.node s with
  | none => .error .badId
  | some nd =>
    match alLookup nd.vars n with
    | some v => .ok (v, t)
    | none => .ok (none, setVars t s (nd.vars ++ [(n, none)]))

/-- `Scope.store(name)`.  The recursive redirect onto a global-declared
name's target scope takes fuel. -/
def store : Nat → STree → Nat → OName → M (Option Nat × STree)
  | 0, _, _, _ => .error .outOfFuel
  | fuel + 1, t, s, n => do
    let (sc, t1) ← load t s n
    match sc with
    | none => pure (some s, setVar t1 s n (some s))
    | some g =>
      if status t1 s n = .Global then do
        let (_, t2) ← store fuel t1 g n
        pure (some g, t2)
      else pure (some g, t1)

/-- `Scope.store_walrus(name)` with the `ClassScope.store_walrus` override. -/
def store_walrus (fuel : Nat) (t : STree) (s : Nat) (n : OName) : M (Option Nat × STree) :=
  match t.node s with
  | none => .error .badId
  | some nd =>
    if nd.kind = .classK then .error (.staticErr .walrusClassBody)
    else if nd.noWalrus then .error (.staticErr .walrusIterable)
    else store fuel t s n

/-- `nonlocal_scope(name)`: dispatched on the scope class.  `MasterScope`
inherits the base `Scope.nonlocal_scope`, which raises `NotImplementedError`;
`GlobalScope` returns `None`; `OpenScope` (here: `ClassScope`) delegates to
its parent; `ClosedScope` loads the name and inspects the result. -/
def nonlocal_scope : Nat → STree → Nat → OName → M (Option Nat × STree)
  | 0, _, _, _ => .error .outOfFuel
  | fuel + 1, t, s, n =>
    match t.node s with
    | none => .error .badId
    | some nd =>
      match nd.kind with
      | .masterK => .error .notImpl
      | .globalK => .ok (none, t)
      | .classK =>
        match nd.parent with
        | none => .error .attrErr
        | some p => nonlocal_scope fuel t p n
      | _ => do
        let (sc, t1) ← load t s n
        if sc = nd.gscope then pure (none, t1)
        else match sc with
          | some x => pure (some x, t1)
          | none =>
            match nd.parent with
            | none => .error .attrErr
            | some p => nonlocal_scope fuel t1 p n

/-- `binding_scope(name)`: `GlobalScope` stores the name; `NestedScope`
loads it, and, when still unresolved, consults `parent.nonlocal_scope`
falling back to the global scope; the base class raises. -/
def binding_scope (fuel : Nat) (t : STree) (s : Nat) (n : OName) : M (Option Nat × STree) :=
  match t.node s with
  | none => .error .badId
  | some nd =>
    match nd.kind with
    | .masterK => .error .notImpl
    | .globalK => store fuel t s n
    | _ => do
      let (sc, t1) ← load t s n
      match sc with
      | some x => pure (some x, t1)
      | none => do
        let (nl, t2) ←
          match nd.parent with
          | none => .error .attrErr
          | some p => nonlocal_scope fuel t1 p n
        let res := match nl with | some x => some x | none => nd.gscope
        pure (res, setVar t2 s n res)

/-- `Scope.add_nonlocal(name)` with the `GlobalScope` override. -/
def add_nonlocal (fuel : Nat) (t : STree) (s : Nat) (n : OName) : M (Option Nat × STree) :=
  match t.node s with
  | none => .error .badId
  | some nd =>
    if nd.kind = .globalK then .error (.staticErr .nonlocalAtModule)
    else
      match status t s n with
      | .Unknown => do
        let (sc, t1) ← nonlocal_scope fuel t s n
        match sc with
        | none => .error (.staticErr .noNonlocalBinding)
        | some x => pure (some x, setVar t1 s n (some x))
      | .Nonlocal => .ok (alLookup nd.vars n |>.getD none, t)
      | .Global | .Top => .error (.staticErr .nonlocalAndGlobal)
      | _ => .error (.staticErr .usedBeforeNonlocal)

/-- `Scope.add_global(name)` with the `GlobalScope` override
(`GlobalScope.add_global` is just `store`). -/
def add_global (fuel : Nat) (t : STree) (s : Nat) (n : OName) : M (Option Nat × STree) :=
  match t.node s with
  | none => .error .badId
  | some nd =>
    if nd.kind = .globalK then store fuel t s n
    else
      match status t s n with
      | .Unknown => .ok (nd.gscope, setVars t s (alSet nd.vars n nd.gscope))
      | .Global | .Top => .ok (nd.gscope, t)
      | .Nonlocal => .error (.staticErr .nonlocalAndGlobal)
      | _ => .error (.staticErr .usedBeforeGlobal)

/-- `Scope.nest(cls, name)` for the `NestedScope` classes (the only ones
whose constructor `nest`'s positional call matches): create the child —
whose `NestedScope.__init__` runs `parent.store(scope_name)` — then append
it to `self.nested`.  Returns the new scope's id. -/
def nest (fuel : Nat) (t : STree) (s : Nat) (kind : SKind) (n : OName) : M (Nat × STree) :=
  match t.node s with
  | none => .error .badId
  | some pnd =>
    if kind.isNested then do
      let cid := t.nodes.length
      let child : SNode :=
        { kind := kind, sname := n, parent := some s, gscope := pnd.gscope
          vars := [], noWalrus := pnd.noWalrus, nestedIds := [] }
      let t1 : STree := ⟨t.nodes ++ [child]⟩
      let (_, t2) ← store fuel t1 s n
      match t2.node s with
      | none => .error .badId
      | some pnd2 => pure (cid, t2.setNode s { pnd2 with nestedIds := pnd2.nestedIds ++ [cid] })
    else .error .badId

/-- Phase 3 of `Scope.build`: resolve every still-`Used` var of scope `s`
via `binding_scope`.  The dict's key set is unchanged by the loop, so the
iteration is over a snapshot of the keys, re-reading each value. -/
def phase3 (fuel : Nat) (t : STree) (s : Nat) : M STree :=
  match t.node s with
  | none => .error .badId
  | some nd =>
    (nd.vars.map (·.1)).foldlM
      (fun tr k =>
        match tr.node s with
        | none => .error .badId
        | some nd' =>
          match alLookup nd'.vars k with
          | some none => do
            let (_, tr') ← binding_scope fuel tr s k
            pure tr'
          | _ => pure tr)
      t

/-- `GlobalScope(name)`: a fresh `MasterScope` (id 0) plus the global
scope (id 1), which is its own `global_scope`. -/
def mkGlobalTree (n : OName) : STree :=
  ⟨[ { kind := .masterK, sname := some "", parent := none, gscope := none
       vars := [], noWalrus := false, nestedIds := [] },
     { kind := .globalK, sname := n, parent := some 0, gscope := some 1
       vars := [], noWalrus := false, nestedIds := [] } ]⟩

end Scopes

/-! ### The `scopes.test()` scenario

`Global → Class("C") → Function("foo")`, where `foo` stores `self` and
`a` and declares `x` global.  `build()` is replayed as the exact call
trace its builders perform (Phase 1 of each scope), followed by the
Phase 3 resolution passes in the order `build()` runs them (children
before their parent).  Ids: global = 1, C = 2, foo = 3. -/

/-- The scenario tree after `globals.build()` completes. -/
def c1Built : M (Nat × Nat × STree) := do
  let t0 := Scopes.mkGlobalTree (some "")
  -- globals.build Phase 1 (globals_build): c = scope.nest(ClassScope, "C")
  let (cId, t1) ← Scopes.nest 9 t0 1 .classK (some "C")
  -- Phase 2 → c.build Phase 1 (c_build): foo = scope.nest(FunctionScope, "foo")
  let (fooId, t2) ← Scopes.nest 9 t1 cId .functionK (some "foo")
  -- c Phase 2 → foo.build Phase 1 (foo_build)
  let (_, t3) ← Scopes.store 9 t2 fooId (some "self")
  let (_, t4) ← Scopes.store 9 t3 fooId (some "a")
  let (_, t5) ← Scopes.add_global 9 t4 fooId (some "x")
  -- Phase 3 passes, innermost first
  let t6 ← Scopes.phase3 9 t5 fooId
  let t7 ← Scopes.phase3 9 t6 cId
  let t8 ← Scopes.phase3 9 t7 1
  pure (cId, fooId, t8)

/-- The eight `binding_scope` queries of the claim, in its order, threading
the tree through them (`binding_scope` caches its resolutions). -/
def c1Results : M (List (Option Nat)) := do
  let (cId, fooId, t8) ← c1Built
  let (r1, u1) ← Scopes.binding_scope 9 t8 fooId (some "C")
  let (r2, u2) ← Scopes.binding_scope 9 u1 cId (some "C")
  let (r3, u3) ← Scopes.binding_scope 9 u2 fooId (some "foo")
  let (r4, u4) ← Scopes.binding_scope 9 u3 cId (some "foo")
  let (r5, u5) ← Scopes.binding_scope 9 u4 fooId (some "self")
  let (r6, u6) ← Scopes.binding_scope 9 u5 cId (some "self")
  let (r7, u7) ← Scopes.binding_scope 9 u6 fooId (some "x")
  let (r8, _) ← Scopes.binding_scope 9 u7 cId (some "x")
  pure [r1, r2, r3, r4, r5, r6, r7, r8]


/-- After `foo.add_global("x")` on a function scope nested in the global
scope: the classification of `x` in `foo` and in the global scope. -/
def c2AddGlobal : M (Scopes.VarStatus × Scopes.VarStatus) := do
  let t0 := Scopes.mkGlobalTree (some "")
  let (fooId, t1) ← Scopes.nest 9 t0 1 .functionK (some "foo")
  let (_, t2) ← Scopes.add_global 9 t1 fooId (some "x")
  pure (Scopes.status t2 fooId (some "x"), Scopes.status t2 1 (some "x"))

/-- A function scope loads `y` (leaving it Used) and `build()`'s Phase 3
resolves it: the classification of `y` in the function and in the global
scope afterwards. -/
def c2Phase3 : M (Scopes.VarStatus × Scopes.VarStatus) := do
  let t0 := Scopes.mkGlobalTree (some "")
  let (fId, t1) ← Scopes.nest 9 t0 1 .functionK (some "f")
  let (_, t2) ← Scopes.load t1 fId (some "y")
  let t3 ← Scopes.phase3 9 t2 fId
  let t4 ← Scopes.phase3 9 t3 1
  pure (Scopes.status t4 fId (some "y"), Scopes.status t4 1 (some "y"))


/-- `GlobalScope().nest(LambdaScope)` — nesting an anonymous lambda: the
parent's dict entry under the key `None`, its classification, and the
parent's `nested` list. -/
def c3NestAnon : M (Option (Option Nat) × Scopes.VarStatus × List Nat) := do
  let t0 := Scopes.mkGlobalTree (some "")
  let (_, t1) ← Scopes.nest 9 t0 1 .lambdaK none
  match t1.node 1 with
  | none => .error .badId
  | some g => pure (alLookup g.vars none, Scopes.status t1 1 none, g.nestedIds)


/-! ### Runtime namespaces (`namespaces.py`)

A `Namespace` per scope, holding a `Binding` per var.  A `Binding` is a
bound-or-unbound cell; `vars` maps names to `Option Nat` where the entry's
presence is the Binding object and `some v`/`none` is bound/unbound
(values are numbers, enough for the claims).  `namespaces.py` names the
root class `RootNamespace` with a `RootScope`; the scope class is the one
called `MasterScope` in the `scopes.py` shipped beside it.  The namespace
kind is the kind of its scope (the `scope_to_ns` table). -/

/-- One `Namespace` object: its scope id, parent namespace, the cached
`global_ns` attribute and its `vars` dict of Bindings. -/
structure NNode where
  scope : Nat
  parent : Option Nat
  globalNs : Option Nat
  vars : List (OName × Option Nat)
deriving DecidableEq, Repr

/-- The arena of namespace objects; ids are list indices. -/
abbrev NsState := List NNode

def nsNode (st : NsState) (i : Nat) : Option NNode := st[i]?

namespace Ns

/-- `binding.bind(v)` / `binding.unbind()` on namespace `i`'s var `n`. -/
def setVar (st : NsState) (i : Nat) (n : OName) (v : Option Nat) : NsState :=
  match nsNode st i with
  | none => st
  | some nd => st.set i { nd with vars := alSet nd.vars n v }

/-- `Namespace.__init__(scope, parent)`: checks the parent assertions,
inherits `global_ns` (a `GlobalNamespace` then points it at itself), and
creates an unbound `Binding` for every var of the scope — the loop
`for var in scope.vars: self.vars[var] = Binding()`.  Returns the id of
the new namespace and the grown arena. -/
def make (t : STree) (st : NsState) (sc : Nat) (par : Option Nat) : M (Nat × NsState) :=
  match t.node sc with
  | none => .error .badId
  | some snd =>
    let nid := st.length
    let binds := snd.vars.map (fun kv => (kv.1, (none : Option Nat)))
    match par with
    | some p =>
      match nsNode st p with
      | none => .error .badId
      | some pnd =>
        if snd.parent = some pnd.scope then
          let g := if snd.kind = .globalK then some nid else pnd.globalNs
          .ok (nid, st ++ [⟨sc, some p, g, binds⟩])
        else .error .assertErr
    | none =>
      if snd.parent = none then
        let g := if snd.kind = .globalK then some nid else none
        .ok (nid, st ++ [⟨sc, none, g, binds⟩])
      else .error .assertErr

/-- The loop of `Namespace._binding_namespace`: walk the parent chain
until the namespace whose scope is `tgt` (`None` never matches a scope,
so Python falls off the root and dies with an `AttributeError`). -/
def walk : Nat → NsState → Nat → Option Nat → M Nat
  | 0, _, _, _ => .error .outOfFuel
  | fuel + 1, st, cur, tgt =>
    match nsNode st cur with
    | none => .error .badId
    | some nd =>
      if tgt = some nd.scope then .ok cur
      else
        match nd.parent with
        | none => .error .attrErr
        | some p => walk fuel st p tgt

/-- `Namespace._binding_namespace(var)`: `self.scope.vars[var]` (a
`KeyError` when the name never occurred in the scope), then the parent
walk. -/
def binding_namespace (fuel : Nat) (t : STree) (st : NsState) (ns : Nat) (v : OName) : M Nat :=
  match nsNode st ns with
  | none => .error .badId
  | some nd =>
    match t.node nd.scope with
    | none => .error .badId
    | some snd =>
      match alLookup snd.vars v with
      | none => .error .keyErr
      | some tgt => walk fuel st ns tgt

/-- `_load_binding(var)`, dispatched on the namespace class:
`RootNamespace` is a plain `vars.get`; `GlobalNamespace` falls through to
its parent (the root) when its own binding is missing or unbound;
`ClassNamespace` subscripts `self.vars[var]` (KeyError if absent) and
falls through to `global_ns` when unbound; `FunctionNamespace` (and its
Lambda/Comprehension subclasses) is a plain `vars.get`.  The result is
`none` for "no Binding", `some none` for an unbound one, `some (some x)`
for a bound one. -/
def load_binding : Nat → STree → NsState → Nat → OName → M (Option (Option Nat))
  | 0, _, _, _, _ => .error .outOfFuel
  | fuel + 1, t, st, ns, v =>
    match nsNode st ns with
    | none => .error .badId
    | some nd =>
      match t.node nd.scope with
      | none => .error .badId
      | some snd =>
        match snd.kind with
        | .masterK => .ok (alLookup nd.vars v)
        | .globalK =>
          match alLookup nd.vars v with
          | some (some x) => .ok (some (some x))
          | _ =>
            match nd.parent with
            | none => .error .attrErr
            | some p => load_binding fuel t st p v
        | .classK =>
          match alLookup nd.vars v with
          | none => .error .keyErr
          | some (some x) => .ok (some (some x))
          | some none =>
            match nd.globalNs with
            | none => .error .attrErr
            | some g => load_binding fuel t st g v
        | _ => .ok (alLookup nd.vars v)

/-- `Namespace.load(var)` — the spec's `get`. -/
def load (fuel : Nat) (t : STree) (st : NsState) (ns : Nat) (v : OName) : M Nat := do
  let b ← binding_namespace fuel t st ns v
  let bd ← load_binding fuel t st b v
  match bd with
  | some (some x) => pure x
  | _ => if ns = b then .error .unboundLocal else .error .nameErr

/-- `Namespace.has(var)`: the Binding exists and is bound. -/
def has (fuel : Nat) (t : STree) (st : NsState) (ns : Nat) (v : OName) : M Bool := do
  let b ← binding_namespace fuel t st ns v
  let bd ← load_binding fuel t st b v
  pure (match bd with | some (some _) => true | _ => false)

/-- `Namespace.store(var, value)` — the spec's `set`:
`self._binding_namespace(var).vars[var].bind(value)` (the subscript is a
`KeyError` when the binding namespace has no Binding slot). -/
def store (fuel : Nat) (t : STree) (st : NsState) (ns : Nat) (v : OName) (val : Nat) :
    M NsState := do
  let b ← binding_namespace fuel t st ns v
  match nsNode st b with
  | none => .error .badId
  | some nd =>
    match alLookup nd.vars v with
    | none => .error .keyErr
    | some _ => pure (setVar st b v (some val))

/-- `Namespace.delete(var)`: when `has`, unbind the Binding in the binding
namespace (`del` on an already-unbound cell is an `AttributeError`);
otherwise run `load` for its exception. -/
def delete (fuel : Nat) (t : STree) (st : NsState) (ns : Nat) (v : OName) : M NsState := do
  let h ← has fuel t st ns v
  if h then do
    let b ← binding_namespace fuel t st ns v
    match nsNode st b with
    | none => .error .badId
    | some nd =>
      match alLookup nd.vars v with
      | none => .error .keyErr
      | some none => .error .attrErr
      | some (some _) => pure (setVar st b v none)
  else do
    let _ ← load fuel t st ns v
    pure st

end Ns

/-! ### Concrete scenarios for the remaining claims -/

/-- Master(0) → Global(1) → Class "C"(2); `v` is stored in the class body
and also occurs (Top) at module level. -/
def classTreeRun : M STree := do
  let t0 := Scopes.mkGlobalTree (some "")
  let (cId, t1) ← Scopes.nest 9 t0 1 .classK (some "C")
  let (_, t2) ← Scopes.store 9 t1 cId (some "v")
  let (_, t3) ← Scopes.store 9 t2 1 (some "v")
  pure t3

/-- The namespace tree over `classTreeRun`: root(0), global(1), class(2). -/
def classNsRun : M (STree × NsState) := do
  let t ← classTreeRun
  let (rootId, st1) ← Ns.make t [] 0 none
  let (gId, st2) ← Ns.make t st1 1 (some rootId)
  let (_, st3) ← Ns.make t st2 2 (some gId)
  pure (t, st3)

/-- With `v = 99` bound at module level: the binding namespace of the
class namespace for `v`, the class namespace's own Binding cell for `v`,
and the result of `get("v")` on the class namespace. -/
def c6CounterRun : M (Nat × Option (Option Nat) × Nat) := do
  let (t, st) ← classNsRun
  let st1 ← Ns.store 9 t st 1 (some "v") 99
  let b ← Ns.binding_namespace 9 t st1 2 (some "v")
  match nsNode st1 2 with
  | none => .error .badId
  | some nd =>
    let slot := alLookup nd.vars (some "v")
    let r ← Ns.load 9 t st1 2 (some "v")
    pure (b, slot, r)

/-- The round-trip of C7 performed on the class namespace, with `v = 99`
bound at module level: the static status of `v` in the class scope,
`get` after `set(v, 42)`, and `get` after `delete(v)`. -/
def c7CounterRun : M (Scopes.VarStatus × Nat × Nat) := do
  let (t, st) ← classNsRun
  let st1 ← Ns.store 9 t st 1 (some "v") 99
  let st2 ← Ns.store 9 t st1 2 (some "v") 42
  let r1 ← Ns.load 9 t st2 2 (some "v")
  let st3 ← Ns.delete 9 t st2 2 (some "v")
  let r2 ← Ns.load 9 t st3 2 (some "v")
  pure (Scopes.status t 2 (some "v"), r1, r2)

/-- Master(0) → Global(1) → Function "f"(2) where `f` declares
`global x`: the classification of `x` in `f` and the Binding cell the
function's namespace creates for `x` anyway. -/
def c4CounterRun : M (Scopes.VarStatus × Option (Option Nat)) := do
  let t0 := Scopes.mkGlobalTree (some "")
  let (fId, t1) ← Scopes.nest 9 t0 1 .functionK (some "f")
  let (_, t2) ← Scopes.add_global 9 t1 fId (some "x")
  let (rootId, st1) ← Ns.make t2 [] 0 none
  let (gId, st2) ← Ns.make t2 st1 1 (some rootId)
  let (fNsId, st3) ← Ns.make t2 st2 fId (some gId)
  match nsNode st3 fNsId with
  | none => .error .badId
  | some nd => pure (Scopes.status t2 fId (some "x"), alLookup nd.vars (some "x"))

/-- A comprehension scope nested directly in a class body (so its
`no_walrus` flag is inherited as False): its flag, the result of
`store_walrus("v")` on it, and the classification of `v` afterwards. -/
def c5CounterRun : M (Bool × Option Nat × Scopes.VarStatus) := do
  let t0 := Scopes.mkGlobalTree (some "")
  let (cId, t1) ← Scopes.nest 9 t0 1 .classK (some "C")
  let (compId, t2) ← Scopes.nest 9 t1 cId .compK none
  let nw := match t2.node compId with | some nd => nd.noWalrus | none => true
  let (r, t3) ← Scopes.store_walrus 9 t2 compId (some "v")
  pure (nw, r, Scopes.status t3 compId (some "v"))

/-- `load("y")` then `add_global("y")` performed on the global scope
itself: both results (no exception occurs). -/
def c9CounterRun : M (Option Nat × Option Nat) := do
  let t0 := Scopes.mkGlobalTree (some "")
  let (r1, t1) ← Scopes.load t0 1 (some "y")
  let (r2, _) ← Scopes.add_global 9 t1 1 (some "y")
  pure (r1, r2)

/-- Builtins-present half of C8: the root scope owns a `len` slot which
the client binds to 7 in the root namespace (the only way `namespaces.py`
offers to give the "builtins mapping" an entry — `RootNamespace.__init__`
accepts no mapping).  The Global namespace is created before `len` ever
occurs at module level, so it has no Binding for `len`; the global scope
then resolves `len` (as `GlobalScope.binding_scope` would during a
query), and `get("len")` on the Global namespace is evaluated. -/
def c8Fallback : M Nat := do
  let t0 := Scopes.mkGlobalTree (some "")
  let (_, t1) ← Scopes.store 9 t0 0 (some "len")
  let (rootId, st1) ← Ns.make t1 [] 0 none
  let (gId, st2) ← Ns.make t1 st1 1 (some rootId)
  let st3 ← Ns.store 9 t1 st2 rootId (some "len") 7
  let (_, t2) ← Scopes.binding_scope 9 t1 1 (some "len")
  Ns.load 9 t2 st3 gId (some "len")

/-- Builtins-absent half of C8: `len` occurs (Top) in the global scope,
nothing is bound anywhere, and the root namespace has no `len` cell. -/
def c8Absent : M Nat := do
  let t0 := Scopes.mkGlobalTree (some "")
  let (_, t1) ← Scopes.store 9 t0 1 (some "len")
  let (rootId, st1) ← Ns.make t1 [] 0 none
  let (gId, st2) ← Ns.make t1 st1 1 (some rootId)
  Ns.load 9 t1 st2 gId (some "len")

/-- A fixture for witnesses: Master(0) → Global(1) → Function "f"(2)
with `v` Local in `f` — exactly the tree `nest`/`store` build. -/
def wTree : STree :=
  ⟨[ { kind := .masterK, sname := some "", parent := none, gscope := none
       vars := [], noWalrus := false, nestedIds := [] },
     { kind := .globalK, sname := some "", parent := some 0, gscope := some 1
       vars := [(some "f", some 1)], noWalrus := false, nestedIds := [2] },
     { kind := .functionK, sname := some "f", parent := some 1, gscope := some 1
       vars := [(some "v", some 2)], noWalrus := false, nestedIds := [] } ]⟩

/-- The namespace tree `Ns.make` builds over `wTree`: root(0), global(1),
function(2), each Binding unbound. -/
def wNs : NsState :=
  [ ⟨0, none, none, []⟩,
    ⟨1, some 0, some 1, [(some "f", none)]⟩,
    ⟨2, some 1, some 1, [(some "v", none)]⟩ ]

/-! ### Helper lemmas -/

theorem alLookup_alSet_self {α : Type} (l : List (OName × α)) (k : OName) (v : α) :
    alLookup (alSet l k v) k = some v := by
  induction l with
  | nil => simp [alSet, alLookup]
  | cons kv r ih =>
    obtain ⟨k0, v0⟩ := kv
    by_cases hk : k0 = k
    · simp [alSet, hk, alLookup]
    · simp [alSet, hk, alLookup, ih]

theorem alLookup_append_missing {α : Type} {l : List (OName × α)} {k : OName} (x : α)
    (h : alLookup l k = none) : alLookup (l ++ [(k, x)]) k = some x := by
  induction l with
  | nil => simp [alLookup]
  | cons kv r ih =>
    obtain ⟨k0, v0⟩ := kv
    by_cases hk : k0 = k
    · simp [alLookup, hk] at h
    · simp only [List.cons_append, alLookup, hk, if_false] at h ⊢
      · exact ih h

theorem alLookup_mapConst {α β : Type} (l : List (OName × α)) (k : OName) (c : β) :
    alLookup (l.map (fun kv => (kv.1, c))) k = (alLookup l k).map (fun _ => c) := by
  induction l with
  | nil => simp [alLookup]
  | cons kv r ih =>
    obtain ⟨k0, v0⟩ := kv
    by_cases hk : k0 = k <;> simp [alLookup, hk, ih]

theorem sNode_lt {t : STree} {i : Nat} {nd : SNode} (h : t.node i = some nd) :
    i < t.nodes.length := by
  simp only [STree.node] at h
  rw [List.getElem?_eq_some] at h
  exact h.1

theorem sNode_setNode_self {t : STree} {i : Nat} {nd0 nd : SNode} (h : t.node i = some nd0) :
    (t.setNode i nd).node i = some nd := by
  simp only [STree.node, STree.setNode]
  exact List.getElem?_set_eq_of_lt _ (sNode_lt h)

theorem sNode_setVar_self {t : STree} {s : Nat} {n : OName} {v : Option Nat} {nd : SNode}
    (h : t.node s = some nd) :
    (Scopes.setVar t s n v).node s = some { nd with vars := alSet nd.vars n v } := by
  unfold Scopes.setVar
  rw [h]
  exact sNode_setNode_self h

theorem sNode_setVars_self {t : STree} {s : Nat} {vs : List (OName × Option Nat)} {nd : SNode}
    (h : t.node s = some nd) :
    (Scopes.setVars t s vs).node s = some { nd with vars := vs } := by
  unfold Scopes.setVars
  rw [h]
  exact sNode_setNode_self h

theorem nsNode_lt {st : NsState} {i : Nat} {nd : NNode} (h : nsNode st i = some nd) :
    i < st.length := by
  simp only [nsNode] at h
  rw [List.getElem?_eq_some] at h
  exact h.1

theorem nsNode_set_self {st : NsState} {i : Nat} {nd0 nd : NNode} (h : nsNode st i = some nd0) :
    nsNode (st.set i nd) i = some nd := by
  simp only [nsNode]
  exact List.getElem?_set_eq_of_lt _ (nsNode_lt h)

theorem nsSetVar_node {st : NsState} {i : Nat} {n : OName} {v : Option Nat} {nd : NNode}
    (h : nsNode st i = some nd) :
    nsNode (Ns.setVar st i n v) i = some { nd with vars := alSet nd.vars n v } := by
  unfold Ns.setVar; rw [h]; exact nsNode_set_self h

theorem status_local_lookup {t : STree} {s : Nat} {n : OName} {snd : SNode}
    (hs : t.node s = some snd) (h : Scopes.status t s n = .Local) :
    alLookup snd.vars n = some (some s) := by
  simp only [Scopes.status, hs] at h
  cases hl : alLookup snd.vars n with
  | none => simp only [hl] at h; exact absurd h (by simp)
  | some v =>
    cases v with
    | none => simp only [hl] at h; exact absurd h (by simp)
    | some sc =>
      simp only [hl] at h
      split at h
      · exact absurd h (by simp)
      · split at h
        · next hcc => rw [hcc]
        · split at h
          · exact absurd h (by simp)
          · exact absurd h (by simp)

theorem store_not_staticErr (fuel : Nat) (t : STree) (s : Nat) (n : OName) (m : SMsg) :
    Scopes.store fuel t s n ≠ .error (.staticErr m) := by
  induction fuel generalizing t s n with
  | zero => intro hcon; simp [Scopes.store] at hcon
  | succ f ih =>
    intro hcon
    cases hnode : t.node s with
    | none =>
      simp only [Scopes.store, Scopes.load, hnode, Bind.bind, Except.bind] at hcon
      exact PyErr.noConfusion (Except.error.inj hcon)
    | some nd =>
      cases hlk : alLookup nd.vars n with
      | none =>
        simp only [Scopes.store, Scopes.load, hnode, hlk, Bind.bind, Except.bind] at hcon
        exact Except.noConfusion hcon
      | some g0 =>
        cases g0 with
        | none =>
          simp only [Scopes.store, Scopes.load, hnode, hlk, Bind.bind, Except.bind] at hcon
          exact Except.noConfusion hcon
        | some g =>
          simp only [Scopes.store, Scopes.load, hnode, hlk, Bind.bind, Except.bind] at hcon
          split at hcon
          · cases hrec : Scopes.store f t g n with
            | ok p =>
              rw [hrec] at hcon
              simp only [Except.bind] at hcon
              exact Except.noConfusion hcon
            | error e =>
              rw [hrec] at hcon
              simp only [Except.bind] at hcon
              exact ih t g n (by rw [hrec, Except.error.inj hcon])
          · exact Except.noConfusion hcon

theorem bns_self (fuel : Nat) (t : STree) (st : NsState) (ns : Nat) (v : OName)
    (nd : NNode) (hn : nsNode st ns = some nd)
    (snd : SNode) (hs : t.node nd.scope = some snd)
    (hv : alLookup snd.vars v = some (some nd.scope)) :
    Ns.binding_namespace (fuel + 1) t st ns v = .ok ns := by
  simp [Ns.binding_namespace, hn, hs, hv, Ns.walk]

theorem load_binding_closed (fuel : Nat) (t : STree) (st : NsState) (ns : Nat) (v : OName)
    (nd : NNode) (hn : nsNode st ns = some nd)
    (snd : SNode) (hs : t.node nd.scope = some snd)
    (hk : snd.kind.isClosed = true) :
    Ns.load_binding (fuel + 1) t st ns v = .ok (alLookup nd.vars v) := by
  cases hkk : snd.kind with
  | masterK => rw [hkk] at hk; simp [SKind.isClosed] at hk
  | globalK => rw [hkk] at hk; simp [SKind.isClosed] at hk
  | classK => rw [hkk] at hk; simp [SKind.isClosed] at hk
  | functionK => simp [Ns.load_binding, hn, hs, hkk]
  | lambdaK => simp [Ns.load_binding, hn, hs, hkk]
  | compK => simp [Ns.load_binding, hn, hs, hkk]

theorem c4_aux (t : STree) (st : NsState) (sc : Nat) (snd : SNode)
    (hs : t.node sc = some snd) (pr g : Option Nat) :
    ∃ nnd, nsNode
        (st ++ [⟨sc, pr, g, snd.vars.map (fun kv => (kv.1, (none : Option Nat)))⟩])
        st.length = some nnd ∧
      (∀ v, (alLookup nnd.vars v).isSome ↔ (alLookup snd.vars v).isSome) ∧
      (∀ v, Scopes.status t sc v = .Local → (alLookup nnd.vars v).isSome) := by
  refine ⟨_, List.getElem?_concat_length _ _, fun v => ?_, fun v hl => ?_⟩
  · simp [alLookup_mapConst]
  · have hv := status_local_lookup hs hl
    simp [alLookup_mapConst, hv]

/-! ### The claims -/

/-- C1: in the scenario Global → Class("C") → Function("foo") where `foo`
stores `self` and `a` and declares `x` global, after `build()` the eight
`binding_scope` queries resolve to Global, Global, Global, C, foo, Global,
Global, Global respectively (ids 1 = Global, 2 = C, 3 = foo): class scopes
are skipped when a nested closure resolves a free name. -/
theorem c1_class_scope_invisibility :
    c1Results = .ok [some 1, some 1, some 1, some 2, some 3, some 1, some 1, some 1] := by
  decide

/-- C2: the code does NOT do what the claim (and the docstrings of
`scopes.py`, which promise "Also adds a load(var) to the global scope")
say.  After `add_global("x")` classifies `x` Global in `foo`, and after
Phase 3 resolves a Used `y` to Global, the global scope itself still has
no entry at all for the name (its status there is `Unknown`). -/
theorem c2_global_scope_not_marked :
    c2AddGlobal = .ok (.Global, .Unknown) ∧ c2Phase3 = .ok (.Global, .Unknown) := by
  decide

/-- C3: contrary to the claim (and to `nest`'s docstring "Report the name
as assigned in the current scope, except for Lambda and Comprehension,
which are anonymous"), `NestedScope.__init__` unconditionally runs
`parent.store(scope_name)`: nesting an anonymous Lambda stores the key
`None` in the parent scope (here classified Top), beside appending the
child to `nested`. -/
theorem c3_nest_stores_anonymous_name :
    c3NestAnon = .ok (some (some 1), .Top, [2]) := by
  decide

/-- C4 counterexample: in a function scope that declares `global x`, the
constructed Namespace holds an (unbound) Binding for `x` although `x` is
classified Global there, refuting "bindings are created for exactly the
names classified Local". -/
theorem c4_counterexample : c4CounterRun = .ok (.Global, some none) := by
  decide

/-- C4 (amended): a Namespace constructed by `Namespace.__init__` holds a
Binding for exactly the names occurring in its Scope's `vars` dict —
whatever their classification — and in particular for every name the
Scope classifies Local. -/
theorem c4_bindings_match_all_vars (t : STree) (st : NsState) (sc : Nat) (par : Option Nat)
    (nid : Nat) (st' : NsState) (snd : SNode) (hs : t.node sc = some snd)
    (hmk : Ns.make t st sc par = .ok (nid, st')) :
    ∃ nnd, nsNode st' nid = some nnd ∧
      (∀ v, (alLookup nnd.vars v).isSome ↔ (alLookup snd.vars v).isSome) ∧
      (∀ v, Scopes.status t sc v = .Local → (alLookup nnd.vars v).isSome) := by
  cases par with
  | some p =>
    cases hp : nsNode st p with
    | none => simp [Ns.make, hs, hp] at hmk
    | some pnd =>
      simp only [Ns.make, hs, hp] at hmk
      split at hmk
      · have hpair := Except.ok.inj hmk
        injection hpair with h1 h2
        subst h1; subst h2
        exact c4_aux t st sc snd hs _ _
      · exact Except.noConfusion hmk
  | none =>
    simp only [Ns.make, hs] at hmk
    split at hmk
    · have hpair := Except.ok.inj hmk
      injection hpair with h1 h2
      subst h1; subst h2
      exact c4_aux t st sc snd hs _ _
    · exact Except.noConfusion hmk

/-- C4 witness: the amended theorem applied to the function scope of
`wTree`. -/
theorem c4_bindings_match_all_vars_witness :
    ∃ nnd, nsNode wNs 2 = some nnd ∧
      (∀ v, (alLookup nnd.vars v).isSome ↔
        (alLookup [(some "v", (some 2 : Option Nat))] v).isSome) ∧
      (∀ v, Scopes.status wTree 2 v = .Local → (alLookup nnd.vars v).isSome) :=
  c4_bindings_match_all_vars wTree
    [⟨0, none, none, []⟩, ⟨1, some 0, some 1, [(some "f", none)]⟩] 2 (some 1) 2 wNs
    ⟨.functionK, some "f", some 1, some 1, [(some "v", some 2)], false, []⟩
    (by decide) (by decide)

/-- C5 counterexample: `store_walrus("v")` on a comprehension scope nested
directly in a class body (whose `no_walrus` is False) succeeds and stores
`v` Local in the comprehension, although the claim demands a
static-binding error whenever the nearest enclosing non-comprehension
scope is a Class. -/
theorem c5_counterexample : c5CounterRun = .ok (false, some 3, .Local) := by
  decide

/-- C5 (amended): `store_walrus(name)` on scope S raises a static-binding
error exactly when S itself is a Class scope (the `ClassScope` override,
which fires even before the `no_walrus` check) or S's `no_walrus` flag is
set; in every other case it is exactly `store(name)`. -/
theorem c5_store_walrus_conditions (fuel : Nat) (t : STree) (s : Nat) (n : OName) (nd : SNode)
    (h : t.node s = some nd) :
    ((∃ m, Scopes.store_walrus fuel t s n = .error (.staticErr m)) ↔
      (nd.kind = .classK ∨ nd.noWalrus = true)) ∧
    (¬ nd.kind = .classK → nd.noWalrus = false →
      Scopes.store_walrus fuel t s n = Scopes.store fuel t s n) := by
  by_cases hc : nd.kind = .classK
  · have heq : Scopes.store_walrus fuel t s n = .error (.staticErr .walrusClassBody) := by
      simp only [Scopes.store_walrus, h, hc, if_true]
    exact ⟨⟨fun _ => Or.inl hc, fun _ => ⟨.walrusClassBody, heq⟩⟩,
           fun hk _ => absurd hc hk⟩
  · by_cases hw : nd.noWalrus = true
    · have heq : Scopes.store_walrus fuel t s n = .error (.staticErr .walrusIterable) := by
        simp only [Scopes.store_walrus, h, if_neg hc, hw, if_true]
      exact ⟨⟨fun _ => Or.inr hw, fun _ => ⟨.walrusIterable, heq⟩⟩,
             fun _ hw' => by rw [hw'] at hw; simp at hw⟩
    · have hfalse : nd.noWalrus = false := by simpa using hw
      have heq : Scopes.store_walrus fuel t s n = Scopes.store fuel t s n := by
        simp only [Scopes.store_walrus, h, if_neg hc, hfalse]
        simp
      refine ⟨⟨fun hex => ?_, fun hor => ?_⟩, fun _ _ => heq⟩
      · obtain ⟨m, hm⟩ := hex
        rw [heq] at hm
        exact absurd hm (store_not_staticErr fuel t s n m)
      · rcases hor with h1 | h1
        · exact absurd h1 hc
        · rw [hfalse] at h1; cases h1

/-- C5 witness: the amended theorem applied to the function scope of
`wTree` (no class, no `no_walrus`: `store_walrus` is `store`). -/
theorem c5_store_walrus_conditions_witness :
    ((∃ m, Scopes.store_walrus 9 wTree 2 (some "w") = .error (.staticErr m)) ↔
      (SKind.functionK = .classK ∨ false = true)) ∧
    (¬ SKind.functionK = .classK → false = false →
      Scopes.store_walrus 9 wTree 2 (some "w") = Scopes.store 9 wTree 2 (some "w")) :=
  c5_store_walrus_conditions 9 wTree 2 (some "w")
    ⟨.functionK, some "f", some 1, some 1, [(some "v", some 2)], false, []⟩ (by decide)

/-- C6 counterexample: the binding namespace of the class namespace for
`v` is the class namespace itself (id 2) and its Binding for `v` is
unbound, yet `get("v")` returns the module-level value 99 through
`ClassNamespace._load_binding`'s global fallback instead of failing with
an unbound-local error. -/
theorem c6_counterexample : c6CounterRun = .ok (2, some none, 99) := by
  decide

/-- C6 (amended): when the binding namespace B's `_load_binding` — which
already includes the Class→Global and Global→root fallbacks — produces no
bound binding for `v`, `get` fails with unbound-local if B is the calling
namespace and with name-not-found otherwise. -/
theorem c6_unbound_binding_errors (fuel : Nat) (t : STree) (st : NsState) (ns b : Nat) (v : OName)
    (bd : Option (Option Nat))
    (hb : Ns.binding_namespace fuel t st ns v = .ok b)
    (hl : Ns.load_binding fuel t st b v = .ok bd)
    (hub : bd = none ∨ bd = some none) :
    (b = ns → Ns.load fuel t st ns v = .error .unboundLocal) ∧
    (¬ b = ns → Ns.load fuel t st ns v = .error .nameErr) := by
  have hmain : Ns.load fuel t st ns v
      = (if ns = b then .error .unboundLocal else .error .nameErr) := by
    rcases hub with hx | hx <;> subst hx <;>
      simp only [Ns.load, hb, hl, Bind.bind, Except.bind]
  constructor
  · intro hbn; subst hbn; simpa using hmain
  · intro hbn; rw [hmain, if_neg (fun hh => hbn hh.symm)]

/-- C6 witness: the amended theorem applied to the function namespace of
`wNs`, whose Binding for `v` is unbound. -/
theorem c6_unbound_binding_errors_witness :
    (2 = 2 → Ns.load 9 wTree wNs 2 (some "v") = .error .unboundLocal) ∧
    (¬ 2 = 2 → Ns.load 9 wTree wNs 2 (some "v") = .error .nameErr) :=
  c6_unbound_binding_errors 9 wTree wNs 2 2 (some "v") (some none)
    (by decide) (by decide) (Or.inr rfl)

/-- C7 counterexample: on a Class namespace whose scope classifies `v`
Local, with `v = 99` bound at module level, `set(v, 42); get(v)` returns
42 but `delete(v); get(v)` returns 99 through the class→global fallback
instead of failing with an unbound-local error. -/
theorem c7_counterexample : c7CounterRun = .ok (.Local, 42, 99) := by
  decide

/-- C7 (amended): on a closed (Function/Lambda/Comprehension) namespace
whose Scope classifies `v` Local and which holds a Binding slot for `v`,
`set(v, 42)` then `get(v)` returns 42, and `delete(v)` then `get(v)`
fails with an unbound-local error. -/
theorem c7_closed_round_trip (fuel : Nat) (t : STree) (st : NsState) (ns : Nat) (v : OName)
    (nd : NNode) (hn : nsNode st ns = some nd)
    (snd : SNode) (hs : t.node nd.scope = some snd)
    (hk : snd.kind.isClosed = true)
    (hloc : Scopes.status t nd.scope v = .Local)
    (hslot : (alLookup nd.vars v).isSome = true) :
    Ns.store (fuel + 1) t st ns v 42 = .ok (Ns.setVar st ns v (some 42)) ∧
    Ns.load (fuel + 1) t (Ns.setVar st ns v (some 42)) ns v = .ok 42 ∧
    Ns.delete (fuel + 1) t (Ns.setVar st ns v (some 42)) ns v
      = .ok (Ns.setVar (Ns.setVar st ns v (some 42)) ns v none) ∧
    Ns.load (fuel + 1) t (Ns.setVar (Ns.setVar st ns v (some 42)) ns v none) ns v
      = .error .unboundLocal := by
  have hv : alLookup snd.vars v = some (some nd.scope) := status_local_lookup hs hloc
  have hb0 : Ns.binding_namespace (fuel + 1) t st ns v = .ok ns :=
    bns_self fuel t st ns v nd hn snd hs hv
  obtain ⟨b0, hb0v⟩ := Option.isSome_iff_exists.mp hslot
  have hstore : Ns.store (fuel + 1) t st ns v 42 = .ok (Ns.setVar st ns v (some 42)) := by
    simp only [Ns.store, hb0, Bind.bind, Except.bind, hn, hb0v]
    rfl
  have hn1 : nsNode (Ns.setVar st ns v (some 42)) ns
      = some { nd with vars := alSet nd.vars v (some 42) } := nsSetVar_node hn
  have hb1 : Ns.binding_namespace (fuel + 1) t (Ns.setVar st ns v (some 42)) ns v = .ok ns :=
    bns_self fuel t _ ns v _ hn1 snd hs hv
  have hlb1 : Ns.load_binding (fuel + 1) t (Ns.setVar st ns v (some 42)) ns v
      = .ok (some (some 42)) := by
    rw [load_binding_closed fuel t _ ns v _ hn1 snd hs hk, alLookup_alSet_self]
  have hload1 : Ns.load (fuel + 1) t (Ns.setVar st ns v (some 42)) ns v = .ok 42 := by
    simp only [Ns.load, hb1, hlb1, Bind.bind, Except.bind]
    rfl
  have hhas1 : Ns.has (fuel + 1) t (Ns.setVar st ns v (some 42)) ns v = .ok true := by
    simp only [Ns.has, hb1, hlb1, Bind.bind, Except.bind]
    rfl
  have hdel : Ns.delete (fuel + 1) t (Ns.setVar st ns v (some 42)) ns v
      = .ok (Ns.setVar (Ns.setVar st ns v (some 42)) ns v none) := by
    simp only [Ns.delete, hhas1, Bind.bind, Except.bind, if_true, hb1, hn1,
      alLookup_alSet_self]
    rfl
  have hn2 : nsNode (Ns.setVar (Ns.setVar st ns v (some 42)) ns v none) ns
      = some { nd with vars := alSet (alSet nd.vars v (some 42)) v none } := nsSetVar_node hn1
  have hb2 : Ns.binding_namespace (fuel + 1) t
      (Ns.setVar (Ns.setVar st ns v (some 42)) ns v none) ns v = .ok ns :=
    bns_self fuel t _ ns v _ hn2 snd hs hv
  have hlb2 : Ns.load_binding (fuel + 1) t
      (Ns.setVar (Ns.setVar st ns v (some 42)) ns v none) ns v = .ok (some none) := by
    rw [load_binding_closed fuel t _ ns v _ hn2 snd hs hk, alLookup_alSet_self]
  have hload2 : Ns.load (fuel + 1) t
      (Ns.setVar (Ns.setVar st ns v (some 42)) ns v none) ns v = .error .unboundLocal := by
    simp only [Ns.load, hb2, hlb2, Bind.bind, Except.bind]
    simp
  exact ⟨hstore, hload1, hdel, hload2⟩

/-- C7 witness: the amended theorem applied to the function namespace of
`wNs`. -/
theorem c7_closed_round_trip_witness :
    Ns.store (8 + 1) wTree wNs 2 (some "v") 42 = .ok (Ns.setVar wNs 2 (some "v") (some 42)) ∧
    Ns.load (8 + 1) wTree (Ns.setVar wNs 2 (some "v") (some 42)) 2 (some "v") = .ok 42 ∧
    Ns.delete (8 + 1) wTree (Ns.setVar wNs 2 (some "v") (some 42)) 2 (some "v")
      = .ok (Ns.setVar (Ns.setVar wNs 2 (some "v") (some 42)) 2 (some "v") none) ∧
    Ns.load (8 + 1) wTree (Ns.setVar (Ns.setVar wNs 2 (some "v") (some 42)) 2 (some "v") none)
      2 (some "v") = .error .unboundLocal :=
  c7_closed_round_trip 8 wTree wNs 2 (some "v")
    ⟨2, some 1, some 1, [(some "v", none)]⟩ (by decide)
    ⟨.functionK, some "f", some 1, some 1, [(some "v", some 2)], false, []⟩ (by decide)
    (by decide) (by decide) (by decide)

/-- C8: what the code actually does.  The fallback succeeds only through
the root namespace's own Binding table, which a client must populate by
hand (`RootNamespace.__init__` accepts no builtins mapping); and when
nothing is found, `get("len")` on the Global namespace — its own binding
namespace — raises UnboundLocalError, not the claimed (and documented)
NameError. -/
theorem c8_builtins_fallback_behavior :
    c8Fallback = .ok 7 ∧ c8Absent = .error .unboundLocal := by
  decide

/-- C9 counterexample: on the Global scope itself, `load("y")` then
`add_global("y")` raises nothing — `GlobalScope.add_global` is `store`,
which simply classifies `y` Top (returning the global scope, id 1). -/
theorem c9_counterexample : c9CounterRun = .ok (none, some 1) := by
  decide

/-- C9 (amended): on every scope other than the Global scope in which the
name has not yet occurred, `load` then `add_global` fails with the
static-binding error, while `add_global` then `load` succeeds. -/
theorem c9_order_sensitivity_nonglobal (fuel : Nat) (t : STree) (s : Nat) (n : OName) (nd : SNode)
    (h : t.node s = some nd) (hk : ¬ nd.kind = .globalK) (hnew : alLookup nd.vars n = none) :
    ((do
       let (_, t1) ← Scopes.load t s n
       Scopes.add_global fuel t1 s n) = .error (.staticErr .usedBeforeGlobal)) ∧
    ((do
       let (_, t1) ← Scopes.add_global fuel t s n
       Scopes.load t1 s n) = .ok (nd.gscope, Scopes.setVar t s n nd.gscope)) := by
  have hload : Scopes.load t s n = .ok (none, Scopes.setVars t s (nd.vars ++ [(n, none)])) := by
    simp only [Scopes.load, h, hnew]
  have hst : Scopes.status t s n = .Unknown := by
    simp only [Scopes.status, h, hnew]
  have hag : Scopes.add_global fuel t s n
      = .ok (nd.gscope, Scopes.setVars t s (alSet nd.vars n nd.gscope)) := by
    simp only [Scopes.add_global, h, hst, if_neg hk]
  constructor
  · rw [hload]
    have h1 := @sNode_setVars_self t s (nd.vars ++ [(n, none)]) nd h
    have hst1 : Scopes.status (Scopes.setVars t s (nd.vars ++ [(n, none)])) s n = .Used := by
      simp only [Scopes.status, h1, alLookup_append_missing _ hnew]
    simp only [Bind.bind, Except.bind, Scopes.add_global, h1, hst1, if_neg hk]
  · rw [hag]
    have h2 := @sNode_setVars_self t s (alSet nd.vars n nd.gscope) nd h
    simp only [Bind.bind, Except.bind, Scopes.load, h2, alLookup_alSet_self,
      Scopes.setVar, h]
    simp only [Scopes.setVars, h]

/-- C9 witness: the amended theorem applied to the function scope of
`wTree` and a fresh name. -/
theorem c9_order_sensitivity_nonglobal_witness :
    ((do
       let (_, t1) ← Scopes.load wTree 2 (some "y")
       Scopes.add_global 9 t1 2 (some "y")) = .error (.staticErr .usedBeforeGlobal)) ∧
    ((do
       let (_, t1) ← Scopes.add_global 9 wTree 2 (some "y")
       Scopes.load t1 2 (some "y")) = .ok (some 1, Scopes.setVar wTree 2 (some "y") (some 1))) :=
  c9_order_sensitivity_nonglobal 9 wTree 2 (some "y")
    ⟨.functionK, some "f", some 1, some 1, [(some "v", some 2)], false, []⟩
    (by decide) (by decide) (by decide)

/-- C10: for a name with no entry at all in the caller's scope `vars`,
`get`, `set` and `delete` all die with the out-of-contract KeyError from
`Namespace._binding_namespace`'s `self.scope.vars[var]` subscript — not
with either documented runtime error. -/
theorem c10_missing_name_key_error (fuel : Nat) (t : STree) (st : NsState) (ns : Nat) (v : OName)
    (nd : NNode) (hn : nsNode st ns = some nd)
    (snd : SNode) (hs : t.node nd.scope = some snd)
    (hmiss : alLookup snd.vars v = none) :
    Ns.load fuel t st ns v = .error .keyErr ∧
    (∀ val, Ns.store fuel t st ns v val = .error .keyErr) ∧
    Ns.delete fuel t st ns v = .error .keyErr := by
  have hb : Ns.binding_namespace fuel t st ns v = .error .keyErr := by
    simp only [Ns.binding_namespace, hn, hs, hmiss]
  have hl : Ns.load fuel t st ns v = .error .keyErr := by
    simp only [Ns.load, hb, Bind.bind, Except.bind]
  have hh : Ns.has fuel t st ns v = .error .keyErr := by
    simp only [Ns.has, hb, Bind.bind, Except.bind]
  refine ⟨hl, fun val => ?_, ?_⟩
  · simp only [Ns.store, hb, Bind.bind, Except.bind]
  · simp only [Ns.delete, hh, Bind.bind, Except.bind]

/-- C10 witness: the theorem applied to the function namespace of `wNs`
and a name that never occurs in its scope. -/
theorem c10_missing_name_key_error_witness :
    Ns.load 9 wTree wNs 2 (some "zzz") = .error .keyErr ∧
    (∀ val, Ns.store 9 wTree wNs 2 (some "zzz") val = .error .keyErr) ∧
    Ns.delete 9 wTree wNs 2 (some "zzz") = .error .keyErr :=
  c10_missing_name_key_error 9 wTree wNs 2 (some "zzz")
    ⟨2, some 1, some 1, [(some "v", none)]⟩ (by decide)
    ⟨.functionK, some "f", some 1, some 1, [(some "v", some 2)], false, []⟩ (by decide)
    (by decide)
